import Mathlib

/-
Shallow embedding of the service worker `sw.js` of the Farmacia Vivo Más
storefront: request classification, caching strategies (cache-first,
network-first, network-with-timeout), cache-generation lifecycle
(install priming, activate eviction) and the control channel.

Strings model JS strings; `jsIncludes` models `String.prototype.includes`;
the cache storage (`caches`) is modelled as an ordered list of named
generations, each an association list from request key to stored response,
with `caches.match` searching generations in creation order.
-/

set_option autoImplicit false

namespace SW

/-- The character list `pat` occurs at the start of `l` (helper for `jsIncludes`). -/
def leadsWith : List Char → List Char → Bool
  | [], _ => true
  | _ :: _, [] => false
  | a :: pat, b :: bs => a == b && leadsWith pat bs

/-- The character list `pat` occurs somewhere inside `l` (helper for `jsIncludes`). -/
def occursIn (pat : List Char) : List Char → Bool
  | [] => leadsWith pat []
  | b :: bs => leadsWith pat (b :: bs) || occursIn pat bs

/-- Model of JS `s.includes(sub)`: substring containment. -/
def jsIncludes (s sub : String) : Bool :=
  occursIn sub.toList s.toList

/-- The character list `pat` occurs at the end of `l` (used only to state the spec's "path ends in" rule). -/
def trailsWith (pat l : List Char) : Bool :=
  leadsWith pat.reverse l.reverse

-- Configuration constants of sw.js (lines 2-37).

/-- `const CACHE_NAME = 'vivomas-v1.0.0'` (sw.js line 2). -/
def CACHE_NAME : String := "vivomas-v1.0.0"

/-- `const STATIC_CACHE = 'vivomas-static-v1'` (sw.js line 3). -/
def STATIC_CACHE : String := "vivomas-static-v1"

/-- `const DYNAMIC_CACHE = 'vivomas-dynamic-v1'` (sw.js line 4). -/
def DYNAMIC_CACHE : String := "vivomas-dynamic-v1"

/-- `STATIC_ASSETS` (sw.js lines 7-18). -/
def STATIC_ASSETS : List String :=
  ["/",
   "/index.html",
   "/src/main.jsx",
   "/src/App.jsx",
   "/src/App.css",
   "/src/index.css",
   "/logo-vivomas-transparente.png",
   "/Logo-Vivo-Mas-Icono.png",
   "/logo-vivomas-2.png",
   "/manifest.json"]

/-- `PRODUCT_IMAGES` (sw.js lines 21-28). -/
def PRODUCT_IMAGES : List String :=
  ["/productos/citrato_magnesio.png",
   "/productos/citrato_potasio.png",
   "/productos/vitamina_d3.png",
   "/productos/colageno_hidrolizado.png",
   "/productos/blistex_variedades.png",
   "/productos/test_embarazo_cassette.png"]

/-- `BRANCH_IMAGES` (sw.js lines 31-37). -/
def BRANCH_IMAGES : List String :=
  ["/sucursal_castellon.jpg",
   "/sucursal_ohiggins.jpg",
   "/sucursal_chillan.jpg",
   "/sucursal_yumbel.jpg",
   "/sucursal_rengo.png"]

-- Data model: responses and the cache storage.

/-- A stored/returned response: status, headers, body (models JS `Response`). -/
structure Response where
  status : Nat
  headers : List (String × String)
  body : String
deriving DecidableEq

/-- JS `Response.ok`: status in the range 200-299. -/
def Response.ok (r : Response) : Bool :=
  decide (200 ≤ r.status ∧ r.status < 300)

/-- `new Response('Recurso no disponible offline', { status: 503 })` (sw.js line 140). -/
def resp503offline : Response :=
  { status := 503, headers := [], body := "Recurso no disponible offline" }

/-- `new Response('Contenido no disponible offline', { status: 503, headers: ... })` (sw.js lines 170-173). -/
def resp503content : Response :=
  { status := 503,
    headers := [("Content-Type", "text/plain; charset=utf-8")],
    body := "Contenido no disponible offline" }

/-- `new Response('Servicio no disponible', { status: 503 })` (sw.js line 189). -/
def resp503service : Response :=
  { status := 503, headers := [], body := "Servicio no disponible" }

/-- One cache generation: an association list from request key (URL) to stored response. -/
abbrev Gen : Type := List (String × Response)

/-- The `caches` storage: named generations in creation order
(`caches.match` consults caches in the order they were created). -/
abbrev CacheState : Type := List (String × Gen)

/-- Lookup of a key inside one generation (`cache.match(request)`). -/
def genGet : Gen → String → Option Response
  | [], _ => none
  | e :: es, k => if e.1 == k then some e.2 else genGet es k

/-- Removal of a key from one generation (helper of `genPut`). -/
def genDrop : Gen → String → Gen
  | [], _ => []
  | e :: es, k => if e.1 != k then e :: genDrop es k else genDrop es k

/-- `cache.put(request, response)`: overwrite any existing entry for the key. -/
def genPut (es : Gen) (k : String) (r : Response) : Gen :=
  (k, r) :: genDrop es k

/-- `caches.open(name)`: idempotent open-or-create of a named generation. -/
def cachesOpen (st : CacheState) (name : String) : CacheState :=
  if st.any (fun g => g.1 == name) then st else st ++ [(name, [])]

/-- `cache.put` on the generation of the given name. -/
def cachePut : CacheState → String → String → Response → CacheState
  | [], _, _, _ => []
  | g :: st, name, k, r =>
    (if g.1 == name then (g.1, genPut g.2 k r) else g) :: cachePut st name k r

/-- `caches.delete(name)`. -/
def cachesDelete (st : CacheState) (name : String) : CacheState :=
  st.filter (fun g => g.1 != name)

/-- `caches.keys()`: the names of the existing generations. -/
def cachesKeys (st : CacheState) : List String :=
  st.map (fun g => g.1)

/-- `caches.match(request)`: search every generation in creation order, first hit wins. -/
def cachesMatch : CacheState → String → Option Response
  | [], _ => none
  | g :: rest, k =>
    match genGet g.2 k with
    | some r => some r
    | none => cachesMatch rest k

/-- Lookup of a key in the generation of the given name (for stating where a value was stored). -/
def stGet : CacheState → String → String → Option Response
  | [], _, _ => none
  | g :: st, name, k => if g.1 == name then genGet g.2 k else stGet st name k

-- Resource classifier (sw.js lines 194-219) and the fetch handler's dispatch (lines 85-118).

/-- `isStaticAsset` (sw.js lines 194-200): substring tests via `url.includes(...)`. -/
def isStaticAsset (url : String) : Bool :=
  STATIC_ASSETS.any (fun asset => jsIncludes url asset) ||
  jsIncludes url ".css" ||
  jsIncludes url ".js" ||
  jsIncludes url ".woff" ||
  jsIncludes url ".woff2"

/-- `isImage` (sw.js lines 202-211). -/
def isImage (url : String) : Bool :=
  jsIncludes url ".jpg" ||
  jsIncludes url ".jpeg" ||
  jsIncludes url ".png" ||
  jsIncludes url ".webp" ||
  jsIncludes url ".svg" ||
  jsIncludes url "/productos/" ||
  jsIncludes url "/sucursal_" ||
  jsIncludes url "/convenios/"

/-- `isExternalAPI` (sw.js lines 213-219). -/
def isExternalAPI (url : String) : Bool :=
  jsIncludes url "wa.me" ||
  jsIncludes url "google.com/maps" ||
  jsIncludes url "facebook.com" ||
  jsIncludes url "instagram.com" ||
  jsIncludes url "googleapis.com"

/-- `request.headers.get('accept')?.includes('text/html')` (sw.js lines 105 and 165):
a missing Accept header yields `undefined`, hence falsy. -/
def acceptHtml : Option String → Bool
  | some a => jsIncludes a "text/html"
  | none => false

/-- The five resource classes of the spec's classifier. -/
inductive ResourceClass
  | StaticAsset
  | Image
  | Document
  | ExternalAPI
  | Other
deriving DecidableEq

/-- The class the fetch handler's chain of guards assigns, in source order
(sw.js lines 93, 99, 105, 111, 117). -/
def classify (url : String) (accept : Option String) : ResourceClass :=
  if isStaticAsset url then ResourceClass.StaticAsset
  else if isImage url then ResourceClass.Image
  else if acceptHtml accept then ResourceClass.Document
  else if isExternalAPI url then ResourceClass.ExternalAPI
  else ResourceClass.Other

/-- Which strategy the fetch handler dispatches to (with the timeout argument it passes). -/
inductive StrategyChoice
  | cacheFirstChoice
  | networkFirstChoice
  | timeoutChoice (timeout : Nat)
deriving DecidableEq

/-- The fetch handler's dispatch (sw.js lines 85-118): `none` for non-GET requests,
which are not intercepted at all. -/
def dispatch (method url : String) (accept : Option String) : Option StrategyChoice :=
  if method ≠ "GET" then none
  else if isStaticAsset url then some StrategyChoice.cacheFirstChoice
  else if isImage url then some StrategyChoice.networkFirstChoice
  else if acceptHtml accept then some StrategyChoice.networkFirstChoice
  else if isExternalAPI url then some (StrategyChoice.timeoutChoice 5000)
  else some StrategyChoice.networkFirstChoice

-- Strategy engine (sw.js lines 121-191). The network is modelled by the
-- outcome the `fetch` promise would have for this request.

/-- Outcome of `fetch(request)`: a resolved response (of any status) or a rejection. -/
inductive NetResult
  | success (r : Response)
  | failure
deriving DecidableEq

/-- `cacheFirst` (sw.js lines 121-142): consult `caches.match` (all generations);
on a miss fetch, store ok responses into STATIC_CACHE, and turn a network
rejection into a synthesized 503. -/
def cacheFirst (st : CacheState) (url : String) (net : NetResult) : Response × CacheState :=
  match cachesMatch st url with
  | some r => (r, st)
  | none =>
    match net with
    | NetResult.success r =>
      if r.ok then (r, cachePut (cachesOpen st STATIC_CACHE) STATIC_CACHE url r)
      else (r, st)
    | NetResult.failure => (resp503offline, st)

/-- `networkFirst` (sw.js lines 145-175): fetch first, store ok responses into
DYNAMIC_CACHE; on rejection fall back to `caches.match`, then (for HTML
requests) to the cached root document, then to a synthesized 503. -/
def networkFirst (st : CacheState) (url : String) (accept : Option String) (net : NetResult) :
    Response × CacheState :=
  match net with
  | NetResult.success r =>
    if r.ok then (r, cachePut (cachesOpen st DYNAMIC_CACHE) DYNAMIC_CACHE url r)
    else (r, st)
  | NetResult.failure =>
    match cachesMatch st url with
    | some r => (r, st)
    | none =>
      if acceptHtml accept then
        match cachesMatch st "/" with
        | some off => (off, st)
        | none => (resp503content, st)
      else (resp503content, st)

/-- `networkWithTimeout` (sw.js lines 178-191): race `fetch` against a timer that
fires after `timeout` ms; `arrival` is when the fetch promise settles. The
winner of the race is returned; a rejection or a lost race yields a 503.
No cache generation is read or written. -/
def networkWithTimeout (st : CacheState) (net : NetResult) (arrival timeout : Nat) :
    Response × CacheState :=
  if arrival < timeout then
    match net with
    | NetResult.success r => (r, st)
    | NetResult.failure => (resp503service, st)
  else (resp503service, st)

/-- The full fetch handler (sw.js lines 85-118): dispatch, then run the chosen
strategy. `none` as first component means the request was not intercepted. -/
def handleFetch (method url : String) (accept : Option String) (st : CacheState)
    (net : NetResult) (arrival : Nat) : Option Response × CacheState :=
  match dispatch method url accept with
  | none => (none, st)
  | some StrategyChoice.cacheFirstChoice =>
    let p := cacheFirst st url net
    (some p.1, p.2)
  | some StrategyChoice.networkFirstChoice =>
    let p := networkFirst st url accept net
    (some p.1, p.2)
  | some (StrategyChoice.timeoutChoice t) =>
    let p := networkWithTimeout st net arrival t
    (some p.1, p.2)

-- Install handler (sw.js lines 40-60).

/-- Outcome of a JS promise. -/
inductive PResult
  | resolved
  | rejected
deriving DecidableEq

/-- `Promise.all` over two promises: resolved iff both resolve. -/
def promiseAll2 : PResult → PResult → PResult
  | PResult.resolved, PResult.resolved => PResult.resolved
  | _, _ => PResult.rejected

/-- `cache.addAll(assets)`: resolves iff every asset's fetch succeeds
(`fetchOk` tells which asset URLs fetch successfully). -/
def addAll (fetchOk : String → Bool) (assets : List String) : PResult :=
  if assets.all fetchOk then PResult.resolved else PResult.rejected

/-- The priming subset `[...PRODUCT_IMAGES.slice(0, 3), ...BRANCH_IMAGES.slice(0, 2)]`
(sw.js line 53). -/
def primingAssets : List String :=
  PRODUCT_IMAGES.take 3 ++ BRANCH_IMAGES.take 2

/-- The install handler's `waitUntil` argument (sw.js lines 43-56):
`Promise.all` of the static bulk `addAll` and the dynamic priming `addAll`. -/
def installOutcome (fetchOk : String → Bool) : PResult :=
  promiseAll2 (addAll fetchOk STATIC_ASSETS) (addAll fetchOk primingAssets)

-- Activate handler (sw.js lines 63-82).

/-- The activate handler's eviction with the current generation names as
parameters: delete every generation whose name differs from both
(`cacheName !== STATIC_CACHE && cacheName !== DYNAMIC_CACHE`, sw.js line 71). -/
def activateWith (staticName dynName : String) (st : CacheState) : CacheState :=
  st.filter (fun g => !(g.1 != staticName && g.1 != dynName))

/-- The activate handler as written, with the module's constants (sw.js lines 63-82). -/
def activate (st : CacheState) : CacheState :=
  activateWith STATIC_CACHE DYNAMIC_CACHE st

-- Control channel (sw.js lines 222-240).

/-- The reply payload of a GET_VERSION control message. -/
structure VersionReply where
  version : String
deriving DecidableEq

/-- `event.ports[0].postMessage({ version: CACHE_NAME })` (sw.js line 228). -/
def getVersionReply : VersionReply :=
  { version := CACHE_NAME }

-- Definitions used to state counterexamples and refinement comparisons.

/-- The spec's classifier rule 1 as literally worded (claim C1): StaticAsset if the
URL exactly matches a list entry, or its path ends in .css, .js, .woff or .woff2. -/
def specStaticAsset (url : String) : Bool :=
  STATIC_ASSETS.contains url ||
  trailsWith ".css".toList url.toList ||
  trailsWith ".js".toList url.toList ||
  trailsWith ".woff".toList url.toList ||
  trailsWith ".woff2".toList url.toList

/-- Concrete absolute request URL for the spec's Scenario C. -/
def cexUrl : String := "https://farmaciavivomas.cl/productos/x.png"

/-- CacheFirst as the spec words it for claim C3: the lookup consults the static
generation ONLY, instead of `caches.match` over every generation as the code does. -/
def cacheFirstSpec (st : CacheState) (url : String) (net : NetResult) :
    Response × CacheState :=
  match stGet st STATIC_CACHE url with
  | some r => (r, st)
  | none =>
    match net with
    | NetResult.success r =>
      if r.ok then (r, cachePut (cachesOpen st STATIC_CACHE) STATIC_CACHE url r)
      else (r, st)
    | NetResult.failure => (resp503offline, st)

/-- A 200 response used as concrete cached/fetched content in witnesses. -/
def imgResp : Response := { status := 200, headers := [], body := "imagebytes" }

/-- A cache state whose dynamic generation holds a key the static generation lacks. -/
def c3State : CacheState :=
  [(STATIC_CACHE, []), (DYNAMIC_CACHE, [("https://farmaciavivomas.cl/k", imgResp)])]

/-- A cache state with an empty static generation and no other generation. -/
def c3AbsSt : CacheState := [(STATIC_CACHE, [])]

/-- A fetch-success oracle under which every asset fetches except the first
priming product image (used against claim C5). -/
def c5FetchOk (s : String) : Bool := s != "/productos/citrato_magnesio.png"

/-- The existing generations of the spec's Scenario B. -/
def scenarioB : CacheState := [("v1-static", []), ("v1-dynamic", []), ("v0-static", [])]

-- Helper lemmas about the cache model.

theorem genGet_genPut_self (es : Gen) (k : String) (r : Response) :
    genGet (genPut es k r) k = some r := by
  simp [genGet, genPut]

theorem genGet_genDrop_ne (es : Gen) (k k2 : String) (h : k2 ≠ k) :
    genGet (genDrop es k) k2 = genGet es k2 := by
  induction es with
  | nil => rfl
  | cons e es ih =>
    by_cases he : e.1 = k
    · have hb1 : (e.1 != k) = false := by simp [he]
      have hb2 : (e.1 == k2) = false := by
        apply beq_eq_false_iff_ne.mpr
        rw [he]
        exact fun hh => h hh.symm
      simp [genDrop, genGet, hb1, hb2]
      exact ih
    · have hb1 : (e.1 != k) = true := by simp [he]
      by_cases he2 : e.1 = k2
      · have hb2 : (e.1 == k2) = true := beq_iff_eq.mpr he2
        simp [genDrop, genGet, hb1, hb2]
      · have hb2 : (e.1 == k2) = false := beq_eq_false_iff_ne.mpr he2
        simp [genDrop, genGet, hb1, hb2]
        exact ih

theorem genGet_genPut_ne (es : Gen) (k k2 : String) (r : Response) (h : k2 ≠ k) :
    genGet (genPut es k r) k2 = genGet es k2 := by
  have hb : (k == k2) = false := beq_eq_false_iff_ne.mpr (fun hh => h hh.symm)
  simp [genGet, genPut, hb, genGet_genDrop_ne es k k2 h]

theorem cachesOpen_cons_ne (a : String × Gen) (st : CacheState) (g : String) (h : a.1 ≠ g) :
    cachesOpen (a :: st) g = a :: cachesOpen st g := by
  have hb : (a.1 == g) = false := beq_eq_false_iff_ne.mpr h
  by_cases hs : st.any (fun x => x.1 == g)
  · simp [cachesOpen, hb, hs]
  · simp [cachesOpen, hb, hs]

theorem stGet_store_self (st : CacheState) (g k : String) (r : Response) :
    stGet (cachePut (cachesOpen st g) g k r) g k = some r := by
  induction st with
  | nil => simp [cachesOpen, cachePut, stGet, genGet_genPut_self]
  | cons a st ih =>
    by_cases ha : a.1 = g
    · have hb : (a.1 == g) = true := beq_iff_eq.mpr ha
      simp [cachesOpen, List.any_cons, hb, cachePut, stGet, genGet_genPut_self]
    · have hb : (a.1 == g) = false := beq_eq_false_iff_ne.mpr ha
      rw [cachesOpen_cons_ne a st g ha]
      simp [cachePut, stGet, hb]
      exact ih

theorem cachesMatch_cons_none {a : String × Gen} {st : CacheState} {k : String}
    (h : cachesMatch (a :: st) k = none) :
    genGet a.2 k = none ∧ cachesMatch st k = none := by
  cases hg : genGet a.2 k with
  | some r => simp [cachesMatch, hg] at h
  | none =>
    refine ⟨rfl, ?_⟩
    simpa [cachesMatch, hg] using h

theorem cachesMatch_store_of_none (st : CacheState) (g k : String) (r : Response)
    (h : cachesMatch st k = none) :
    cachesMatch (cachePut (cachesOpen st g) g k r) k = some r := by
  induction st with
  | nil => simp [cachesOpen, cachePut, cachesMatch, genGet_genPut_self]
  | cons a st ih =>
    obtain ⟨h1, h2⟩ := cachesMatch_cons_none h
    by_cases ha : a.1 = g
    · have hb : (a.1 == g) = true := beq_iff_eq.mpr ha
      simp [cachesOpen, hb, cachePut, cachesMatch, genGet_genPut_self]
    · have hb : (a.1 == g) = false := beq_eq_false_iff_ne.mpr ha
      rw [cachesOpen_cons_ne a st g ha]
      simp [cachePut, cachesMatch, hb, h1]
      exact ih h2

theorem stGet_cachePut_ne (st : CacheState) (g k k2 : String) (r : Response) (h : k2 ≠ k) :
    stGet (cachePut st g k r) g k2 = stGet st g k2 := by
  induction st with
  | nil => rfl
  | cons a st ih =>
    by_cases ha : a.1 = g
    · have hb : (a.1 == g) = true := beq_iff_eq.mpr ha
      simp [cachePut, stGet, hb]
      exact genGet_genPut_ne a.2 k k2 r h
    · have hb : (a.1 == g) = false := beq_eq_false_iff_ne.mpr ha
      simp [cachePut, stGet, hb]
      exact ih

theorem filter_idem {α : Type} (p : α → Bool) (l : List α) :
    (l.filter p).filter p = l.filter p := by
  induction l with
  | nil => rfl
  | cons a l ih =>
    cases hb : p a with
    | true => simp [List.filter_cons, hb, ih]
    | false => simp [List.filter_cons, hb, ih]

theorem networkWithTimeout_state (st : CacheState) (net : NetResult) (arrival t : Nat) :
    (networkWithTimeout st net arrival t).2 = st := by
  unfold networkWithTimeout
  split_ifs <;> cases net <;> rfl

theorem networkFirst_failure_state (st : CacheState) (url : String) (accept : Option String) :
    (networkFirst st url accept NetResult.failure).2 = st := by
  unfold networkFirst
  cases h : cachesMatch st url with
  | some r => rfl
  | none =>
    by_cases ha : acceptHtml accept = true
    · simp [ha]
      cases h2 : cachesMatch st "/" <;> rfl
    · simp [ha]

-- Claim C1.

/-- C1 counterexample: the absolute URL of Scenario C neither exactly matches a
static-asset entry nor ends in .css/.js/.woff/.woff2, so the claim predicts
class Image and strategy NetworkFirst; the code classifies it StaticAsset and
dispatches CacheFirst, because `isStaticAsset` tests substring containment and
the list contains "/". -/
theorem C1_counterexample :
    specStaticAsset cexUrl = false ∧
    classify cexUrl none = ResourceClass.StaticAsset ∧
    classify cexUrl none ≠ ResourceClass.Image ∧
    dispatch "GET" cexUrl none = some StrategyChoice.cacheFirstChoice := by
  decide

/-- C1 amended: the classifier assigns StaticAsset iff `isStaticAsset` holds, i.e.
iff the URL CONTAINS a static-asset entry or one of .css/.js/.woff/.woff2 as a
substring; the five rules are evaluated first-match-wins in the order
StaticAsset, Image, Document, ExternalAPI, Other; in particular a GET request
for /productos/x.png (an absolute URL) is classified StaticAsset and dispatched
to CacheFirst. -/
theorem C1_theorem :
    (∀ u a, classify u a = ResourceClass.StaticAsset ↔ isStaticAsset u = true)
    ∧ (∀ u a, classify u a = ResourceClass.Image ↔
        (isStaticAsset u = false ∧ isImage u = true))
    ∧ (∀ u a, classify u a = ResourceClass.Document ↔
        (isStaticAsset u = false ∧ isImage u = false ∧ acceptHtml a = true))
    ∧ (∀ u a, classify u a = ResourceClass.ExternalAPI ↔
        (isStaticAsset u = false ∧ isImage u = false ∧ acceptHtml a = false ∧
          isExternalAPI u = true))
    ∧ (∀ u a, classify u a = ResourceClass.Other ↔
        (isStaticAsset u = false ∧ isImage u = false ∧ acceptHtml a = false ∧
          isExternalAPI u = false))
    ∧ classify cexUrl none = ResourceClass.StaticAsset
    ∧ dispatch "GET" cexUrl none = some StrategyChoice.cacheFirstChoice := by
  refine ⟨?_, ?_, ?_, ?_, ?_, by decide, by decide⟩ <;>
  · intro u a
    unfold classify
    split_ifs <;> simp_all

/-- C1 witness: the amended classifier characterization applied at Scenario C's
absolute URL. -/
theorem C1_witness :
    classify cexUrl none = ResourceClass.StaticAsset :=
  (C1_theorem.1 cexUrl none).mpr (by decide)

-- Claim C2.

/-- C2: the static-asset list contains "/" and `isStaticAsset` tests substring
containment, so every URL containing a slash is a static asset; every
intercepted GET request for such a URL is dispatched to cacheFirst, and the
Image, Document, ExternalAPI and default NetworkFirst branches are unreachable
for absolute URLs (which all contain a slash). -/
theorem C2_theorem (url : String) (accept : Option String)
    (h : jsIncludes url "/" = true) :
    isStaticAsset url = true ∧
    classify url accept = ResourceClass.StaticAsset ∧
    dispatch "GET" url accept = some StrategyChoice.cacheFirstChoice := by
  have hs : isStaticAsset url = true := by
    simp [isStaticAsset, STATIC_ASSETS, List.any_cons, h]
  refine ⟨hs, ?_, ?_⟩
  · simp [classify, hs]
  · simp [dispatch, hs]

/-- C2 witness: the claim instantiated at the absolute URL of the site root. -/
theorem C2_witness :
    jsIncludes "https://farmaciavivomas.cl/" "/" = true ∧
    (isStaticAsset "https://farmaciavivomas.cl/" = true ∧
     classify "https://farmaciavivomas.cl/" none = ResourceClass.StaticAsset ∧
     dispatch "GET" "https://farmaciavivomas.cl/" none =
       some StrategyChoice.cacheFirstChoice) :=
  ⟨by decide, C2_theorem "https://farmaciavivomas.cl/" none (by decide)⟩

-- Claim C3.

/-- C3 counterexample: with the key present in the dynamic generation only and
the network unreachable, the claim (lookup in the static generation only)
predicts a 503, but `cacheFirst` uses `caches.match`, which searches every
generation, and returns the dynamically cached response without any network
success. -/
theorem C3_counterexample :
    (cacheFirst c3State "https://farmaciavivomas.cl/k" NetResult.failure).1 = imgResp ∧
    (cacheFirstSpec c3State "https://farmaciavivomas.cl/k" NetResult.failure).1 =
      resp503offline ∧
    imgResp ≠ resp503offline := by
  decide

/-- C3 amended: the CacheFirst strategy looks the request up via `caches.match`,
i.e. across ALL cache generations (not the static generation only); if an entry
is present anywhere it is returned immediately with no network call; if absent
it fetches from the network, on an ok (2xx) response stores it into the static
generation keyed by the request and returns it, and on network failure returns
a synthesized 503 response. -/
theorem C3_theorem :
    (∀ st url net r, cachesMatch st url = some r → cacheFirst st url net = (r, st))
    ∧ (∀ st url r, cachesMatch st url = none → Response.ok r = true →
        (cacheFirst st url (NetResult.success r)).1 = r ∧
        stGet (cacheFirst st url (NetResult.success r)).2 STATIC_CACHE url = some r)
    ∧ (∀ st url r, cachesMatch st url = none → Response.ok r = false →
        cacheFirst st url (NetResult.success r) = (r, st))
    ∧ (∀ st url, cachesMatch st url = none →
        cacheFirst st url NetResult.failure = (resp503offline, st)) := by
  refine ⟨?_, ?_, ?_, ?_⟩
  · intro st url net r h
    simp [cacheFirst, h]
  · intro st url r h hok
    simp [cacheFirst, h, hok]
    exact stGet_store_self st STATIC_CACHE url r
  · intro st url r h hok
    simp [cacheFirst, h, hok]
  · intro st url h
    simp [cacheFirst, h]

/-- C3 witness: the amended claim instantiated on concrete cache states: a hit
served from cache on network failure, a miss stored into the static generation,
a non-ok miss left unstored, and a miss with network failure answered 503. -/
theorem C3_witness :
    cacheFirst c3State "https://farmaciavivomas.cl/k" NetResult.failure =
      (imgResp, c3State) ∧
    (cacheFirst c3AbsSt "/u" (NetResult.success imgResp)).1 = imgResp ∧
    stGet (cacheFirst c3AbsSt "/u" (NetResult.success imgResp)).2 STATIC_CACHE "/u" =
      some imgResp ∧
    cacheFirst c3AbsSt "/u" (NetResult.success resp503service) = (resp503service, c3AbsSt) ∧
    cacheFirst c3AbsSt "/u" NetResult.failure = (resp503offline, c3AbsSt) := by
  refine ⟨?_, ?_, ?_, ?_, ?_⟩
  · exact C3_theorem.1 c3State "https://farmaciavivomas.cl/k" NetResult.failure imgResp
      (by decide)
  · exact (C3_theorem.2.1 c3AbsSt "/u" imgResp (by decide) (by decide)).1
  · exact (C3_theorem.2.1 c3AbsSt "/u" imgResp (by decide) (by decide)).2
  · exact C3_theorem.2.2.1 c3AbsSt "/u" resp503service (by decide) (by decide)
  · exact C3_theorem.2.2.2 c3AbsSt "/u" (by decide)

-- Claim C4.

/-- C4 counterexample: the GET_VERSION reply carries `CACHE_NAME`
("vivomas-v1.0.0"), which is not the static generation's name
("vivomas-static-v1"). -/
theorem C4_counterexample :
    getVersionReply.version ≠ STATIC_CACHE := by
  decide

/-- C4 amended: the reply to a GET_VERSION control message carries a version
field equal to the global CACHE_NAME constant "vivomas-v1.0.0", which differs
from the static generation's version-stamped name. -/
theorem C4_theorem :
    getVersionReply.version = CACHE_NAME ∧
    getVersionReply.version = "vivomas-v1.0.0" ∧
    CACHE_NAME ≠ STATIC_CACHE := by
  decide

-- Claim C5.

/-- C5 counterexample: under a fetch oracle where every static asset succeeds but
the first priming product image fails, the static bulk step resolves and yet
installation fails, because the install handler awaits `Promise.all` of both
steps; this refutes the claim that the install result depends only on the
static bulk-populate step. -/
theorem C5_counterexample :
    addAll c5FetchOk STATIC_ASSETS = PResult.resolved ∧
    addAll c5FetchOk primingAssets = PResult.rejected ∧
    installOutcome c5FetchOk = PResult.rejected := by
  decide

/-- C5 amended: a failure of the dynamic-generation priming step (first 3 product
images plus first 2 branch images) IS fatal to installation: the install phase
resolves iff the static bulk-populate step succeeds AND the priming step
succeeds. -/
theorem C5_theorem (fetchOk : String → Bool) :
    installOutcome fetchOk = PResult.resolved ↔
      (STATIC_ASSETS.all fetchOk = true ∧ primingAssets.all fetchOk = true) := by
  by_cases h1 : STATIC_ASSETS.all fetchOk = true <;>
    by_cases h2 : primingAssets.all fetchOk = true <;>
      simp [installOutcome, addAll, promiseAll2, h1, h2]

/-- C5 witness: the amended install aggregation applied at the fetch oracle under
which every asset succeeds. -/
theorem C5_witness :
    installOutcome (fun _ => true) = PResult.resolved :=
  (C5_theorem (fun _ => true)).mpr (by decide)

-- Claim C6.

/-- C6: activation deletes exactly the generations whose name equals neither the
current static nor the current dynamic generation name: a name survives iff it
was present and equals one of the two current names; in particular Scenario B
with existing generations v1-static, v1-dynamic, v0-static and current stamps
v1-static, v1-dynamic keeps the first two and drops v0-static; the code's
activate handler is this eviction instantiated at STATIC_CACHE and
DYNAMIC_CACHE. -/
theorem C6_theorem :
    (∀ s d (st : CacheState) (n : String),
      n ∈ cachesKeys (activateWith s d st) ↔
        (n ∈ cachesKeys st ∧ (n = s ∨ n = d)))
    ∧ cachesKeys (activateWith "v1-static" "v1-dynamic" scenarioB) =
        ["v1-static", "v1-dynamic"]
    ∧ (∀ st, activate st = activateWith STATIC_CACHE DYNAMIC_CACHE st) := by
  refine ⟨?_, by decide, fun st => rfl⟩
  intro s d st n
  simp only [activateWith, cachesKeys, List.mem_map, List.mem_filter]
  constructor
  · rintro ⟨x, ⟨hx, hp⟩, hn⟩
    simp only [bne, Bool.not_and, Bool.not_not, Bool.or_eq_true, beq_iff_eq] at hp
    subst hn
    exact ⟨⟨x, hx, rfl⟩, hp⟩
  · rintro ⟨⟨x, hx, hn⟩, hor⟩
    refine ⟨x, ⟨hx, ?_⟩, hn⟩
    simp only [bne, Bool.not_and, Bool.not_not, Bool.or_eq_true, beq_iff_eq]
    rw [hn]
    exact hor

/-- C6 witness: the eviction characterization applied at Scenario B: the stale
generation v0-static does not survive activation. -/
theorem C6_witness :
    ("v0-static" : String) ∉ cachesKeys (activateWith "v1-static" "v1-dynamic" scenarioB) := by
  intro hmem
  have h := (C6_theorem.1 "v1-static" "v1-dynamic" scenarioB "v0-static").mp hmem
  revert h
  decide

-- Claim C7.

/-- C7: networkWithTimeout races the fetch against the timer (the fetch handler
passes the fixed 5000 ms timeout); a response that settles before the timeout
is returned as is, a rejection or a lost race yields the synthesized 503, the
cache is never consulted as a fallback, and the cache state is never written. -/
theorem C7_theorem :
    (∀ st net arrival t, (networkWithTimeout st net arrival t).2 = st)
    ∧ (∀ st r arrival t, arrival < t →
        networkWithTimeout st (NetResult.success r) arrival t = (r, st))
    ∧ (∀ st arrival t, arrival < t →
        networkWithTimeout st NetResult.failure arrival t = (resp503service, st))
    ∧ (∀ st net arrival t, t ≤ arrival →
        networkWithTimeout st net arrival t = (resp503service, st))
    ∧ (∀ u a (st : CacheState) net arrival,
        isStaticAsset u = false → isImage u = false → acceptHtml a = false →
        isExternalAPI u = true →
        handleFetch "GET" u a st net arrival =
          (some (networkWithTimeout st net arrival 5000).1, st)) := by
  refine ⟨networkWithTimeout_state, ?_, ?_, ?_, ?_⟩
  · intro st r arrival t h
    simp [networkWithTimeout, h]
  · intro st arrival t h
    simp [networkWithTimeout, h]
  · intro st net arrival t h
    have hlt : ¬ arrival < t := Nat.not_lt.mpr h
    cases net <;> simp [networkWithTimeout, hlt]
  · intro u a st net arrival h1 h2 h3 h4
    simp [handleFetch, dispatch, h1, h2, h3, h4, networkWithTimeout_state]

/-- C7 witness: the race instantiated on a fast response, a fast rejection, a
response at the timeout boundary, and the external-API dispatch for wa.me. -/
theorem C7_witness :
    networkWithTimeout [] (NetResult.success imgResp) 100 5000 = (imgResp, []) ∧
    networkWithTimeout [] NetResult.failure 100 5000 = (resp503service, []) ∧
    networkWithTimeout [] (NetResult.success imgResp) 5000 5000 = (resp503service, []) ∧
    handleFetch "GET" "wa.me" none [] (NetResult.success imgResp) 100 =
      (some (networkWithTimeout [] (NetResult.success imgResp) 100 5000).1, []) := by
  refine ⟨?_, ?_, ?_, ?_⟩
  · exact C7_theorem.2.1 [] imgResp 100 5000 (by decide)
  · exact C7_theorem.2.2.1 [] 100 5000 (by decide)
  · exact C7_theorem.2.2.2.1 [] (NetResult.success imgResp) 5000 5000 (by decide)
  · exact C7_theorem.2.2.2.2 "wa.me" none [] (NetResult.success imgResp) 100
      (by decide) (by decide) (by decide) (by decide)

-- Claim C8.

/-- C8: a request whose method is not GET is not intercepted: the dispatch
declines it, the handler performs no strategy, returns no response of its own,
and leaves every cache generation exactly as it was. -/
theorem C8_theorem (method url : String) (accept : Option String) (st : CacheState)
    (net : NetResult) (arrival : Nat) (h : method ≠ "GET") :
    dispatch method url accept = none ∧
    handleFetch method url accept st net arrival = (none, st) := by
  have hd : dispatch method url accept = none := by simp [dispatch, h]
  exact ⟨hd, by simp [handleFetch, hd]⟩

/-- C8 witness: a POST request is forwarded untouched with the cache unchanged. -/
theorem C8_witness :
    dispatch "POST" "https://farmaciavivomas.cl/api" none = none ∧
    handleFetch "POST" "https://farmaciavivomas.cl/api" none c3State NetResult.failure 0 =
      (none, c3State) :=
  C8_theorem "POST" "https://farmaciavivomas.cl/api" none c3State NetResult.failure 0
    (by decide)

-- Claim C9.

/-- C9: activation is idempotent on the set of surviving generations: running the
activate eviction twice leaves exactly the generations one run leaves. -/
theorem C9_theorem (st : CacheState) :
    activate (activate st) = activate st := by
  unfold activate activateWith
  exact filter_idem _ st

/-- C9 witness: idempotence of activation applied at the Scenario B state. -/
theorem C9_witness :
    activate (activate scenarioB) = activate scenarioB :=
  C9_theorem scenarioB

-- Claim C10.

/-- C10: a NetworkFirst fetch that succeeds with an ok (2xx) response returns that
response and stores it into the dynamic generation under the request key, where
an immediate lookup finds it byte-identical (also via `caches.match` when no
other generation held the key); nothing is written on a non-ok response or on
network failure; and a stored entry is only ever replaced by a newer write
under the same key, writes under other keys leaving it untouched. -/
theorem C10_theorem :
    (∀ (st : CacheState) url accept r, Response.ok r = true →
      (networkFirst st url accept (NetResult.success r)).1 = r ∧
      stGet (networkFirst st url accept (NetResult.success r)).2 DYNAMIC_CACHE url =
        some r)
    ∧ (∀ (st : CacheState) url accept r, Response.ok r = true →
        cachesMatch st url = none →
        cachesMatch (networkFirst st url accept (NetResult.success r)).2 url = some r)
    ∧ (∀ (st : CacheState) url accept r, Response.ok r = false →
        networkFirst st url accept (NetResult.success r) = (r, st))
    ∧ (∀ (st : CacheState) url accept,
        (networkFirst st url accept NetResult.failure).2 = st)
    ∧ (∀ (st : CacheState) g k r2,
        stGet (cachePut (cachesOpen st g) g k r2) g k = some r2)
    ∧ (∀ (st : CacheState) g k k2 r, k2 ≠ k →
        stGet (cachePut st g k r) g k2 = stGet st g k2) := by
  refine ⟨?_, ?_, ?_, networkFirst_failure_state, stGet_store_self, ?_⟩
  · intro st url accept r hok
    simp [networkFirst, hok]
    exact stGet_store_self st DYNAMIC_CACHE url r
  · intro st url accept r hok h
    simp [networkFirst, hok]
    exact cachesMatch_store_of_none st DYNAMIC_CACHE url r h
  · intro st url accept r hok
    simp [networkFirst, hok]
  · intro st g k k2 r h
    exact stGet_cachePut_ne st g k k2 r h

/-- C10 witness: the round trip instantiated on concrete states: a fresh ok fetch
stored and found again, a non-ok fetch and a failed fetch writing nothing, and
overwrite/frame behaviour of the put operation. -/
theorem C10_witness :
    (networkFirst [] "/img.png" none (NetResult.success imgResp)).1 = imgResp ∧
    stGet (networkFirst [] "/img.png" none (NetResult.success imgResp)).2
      DYNAMIC_CACHE "/img.png" = some imgResp ∧
    cachesMatch (networkFirst [] "/img.png" none (NetResult.success imgResp)).2
      "/img.png" = some imgResp ∧
    networkFirst [] "/img.png" none (NetResult.success resp503service) =
      (resp503service, []) ∧
    (networkFirst [] "/img.png" none NetResult.failure).2 = [] ∧
    stGet (cachePut (cachesOpen [] DYNAMIC_CACHE) DYNAMIC_CACHE "/a" imgResp)
      DYNAMIC_CACHE "/a" = some imgResp ∧
    stGet (cachePut c3State DYNAMIC_CACHE "/a" imgResp) DYNAMIC_CACHE "/b" =
      stGet c3State DYNAMIC_CACHE "/b" := by
  refine ⟨?_, ?_, ?_, ?_, ?_, ?_, ?_⟩
  · exact (C10_theorem.1 [] "/img.png" none imgResp (by decide)).1
  · exact (C10_theorem.1 [] "/img.png" none imgResp (by decide)).2
  · exact C10_theorem.2.1 [] "/img.png" none imgResp (by decide) rfl
  · exact C10_theorem.2.2.1 [] "/img.png" none resp503service (by decide)
  · exact C10_theorem.2.2.2.1 [] "/img.png" none
  · exact C10_theorem.2.2.2.2.1 [] DYNAMIC_CACHE "/a" imgResp
  · exact C10_theorem.2.2.2.2.2 c3State DYNAMIC_CACHE "/a" "/b" imgResp (by decide)

end SW
